import Mathlib

/-!
Shallow embedding of the MathGraph component (config normalization, series
processing, and the render lifecycle) from the repository source, together
with proofs checking the natural-language specification against it.

The source is a React/TypeScript component.  JavaScript runtime values
produced by JSON.parse (plus the `undefined` value that arises from missing
fields) are modelled by the inductive type `JValue`; JS numbers are modelled
as rationals (`Rat`), which covers every numeric literal the component
manipulates (NaN/Infinity never arise from JSON.parse of finite literals).
JSON.parse itself is a host primitive; its outcome on a given input text is
modelled as an `Except Unit JValue` fed to the render pass.
-/

/-- A JavaScript runtime value as observed by the component. `undefined` models
the JS `undefined` value (e.g. a missing object field). -/
inductive JValue where
  | undefined : JValue
  | null : JValue
  | bool : Bool → JValue
  | num : Rat → JValue
  | str : String → JValue
  | arr : List JValue → JValue
  | obj : List (String × JValue) → JValue

/-- JS truthiness: `undefined`, `null`, `false`, `0`, and the empty string
are falsy; every other value (including any array or object) is truthy. -/
def truthy : JValue → Bool
  | .undefined => false
  | .null => false
  | .bool b => b
  | .num q => q != 0
  | .str s => s != ""
  | .arr _ => true
  | .obj _ => true

/-- The JS expression `a || b`: `a` when truthy, else `b`. -/
def jor (a b : JValue) : JValue := if truthy a then a else b

/-- Property read `v.k` on a value that is not `null`/`undefined`: object
fields are looked up by key; reads on primitives and arrays (for the keys the
component uses) yield `undefined`. -/
def objGet (v : JValue) (k : String) : JValue :=
  match v with
  | .obj fs =>
    match fs.find? (fun p => p.1 == k) with
    | some p => p.2
    | none => .undefined
  | _ => .undefined

/-- Error message of the TypeError raised by reading a property of
`null`/`undefined`. -/
def tyErrMsg (who k : String) : String :=
  "Cannot read properties of " ++ who ++ " (reading " ++ k ++ ")"

/-- Property read `v.k` as the host executes it: reading a property of
`null`/`undefined` throws a TypeError, otherwise it is `objGet`. -/
def readField (v : JValue) (k : String) : Except String JValue :=
  match v with
  | .null => .error (tyErrMsg "null" k)
  | .undefined => .error (tyErrMsg "undefined" k)
  | _ => .ok (objGet v k)

/-- Element read `v[i]`; used by the source only under a truthiness guard,
so the `null`/`undefined` cases (which would throw in JS) are unreachable
there. Arrays index positionally, strings index to 1-character strings,
objects look up the decimal key. -/
def jidx (v : JValue) (i : Nat) : JValue :=
  match v with
  | .arr xs => (xs.get? i).getD .undefined
  | .str s => match s.toList.get? i with
    | some c => .str (String.mk [c])
    | none => .undefined
  | .obj fs => objGet (.obj fs) (toString i)
  | _ => .undefined

/-- `Array.isArray`. -/
def isArray : JValue → Bool
  | .arr _ => true
  | _ => false

/-- `v.length` of an array value (only consulted under an `isArray` guard). -/
def arrLen : JValue → Nat
  | .arr xs => xs.length
  | _ => 0

/-- The JS strict comparison `v === "s"` between an arbitrary value and a
string literal. -/
def jStrEq (v : JValue) (s : String) : Bool :=
  match v with
  | .str t => t == s
  | _ => false

/-- Own enumerable fields contributed by an object spread `{...v}`: objects
spread their fields, arrays and strings spread index properties, primitives
and `null`/`undefined` spread nothing. -/
def spreadFields : JValue → List (String × JValue)
  | .obj fs => fs
  | .arr xs => xs.enum.map (fun p => (toString p.1, p.2))
  | .str s => s.toList.enum.map (fun p => (toString p.1, JValue.str (String.mk [p.2])))
  | _ => []

/-- Setting key `k` to `v` in an object-literal field list: an existing
binding is overwritten in place, otherwise the binding is appended. -/
def setField : List (String × JValue) → String → JValue → List (String × JValue)
  | [], k, v => [(k, v)]
  | (k', v') :: fs, k, v =>
    if k' == k then (k, v) :: setField fs k v else (k', v') :: setField fs k v

/-- The fixed fallback color palette (source constant `LEGEND_COLORS`). -/
def LEGEND_COLORS : List String :=
  ["#2563eb", "#dc2626", "#16a34a", "#9333ea", "#ea580c", "#0891b2", "#db2777"]

/-- `const fnType = item.fnType || "linear";` -/
def fnTypeOf (item : JValue) : JValue :=
  jor (objGet item "fnType") (.str "linear")

/-- `let graphType = item.graphType; if (!graphType) { ... }` — derives the
graph type from `fnType` when the supplied one is falsy. -/
def graphTypeOf (item : JValue) : JValue :=
  let rawG := objGet item "graphType"
  if truthy rawG then rawG
  else if jStrEq (fnTypeOf item) "implicit" then .str "interval"
  else if jStrEq (fnTypeOf item) "points" then .str "scatter"
  else .str "polyline"

/-- `color: item.color || LEGEND_COLORS[index % LEGEND_COLORS.length]` -/
def colorOf (item : JValue) (index : Nat) : JValue :=
  jor (objGet item "color")
    (.str (LEGEND_COLORS.getD (index % LEGEND_COLORS.length) ""))

/-- `label: item.label || item.fn || ` the ordinal name `Function {index+1}` -/
def labelOf (item : JValue) (index : Nat) : JValue :=
  jor (jor (objGet item "label") (objGet item "fn"))
    (.str ("Function " ++ toString (index + 1)))

/-- `vector: item.vector ? [item.vector[0], item.vector[1]] : undefined` -/
def vectorOf (item : JValue) : JValue :=
  let v := objGet item "vector"
  if truthy v then .arr [jidx v 0, jidx v 1] else .undefined

/-- `range: fnType !== "implicit" && Array.isArray(item.range) &&
item.range.length === 2 ? [item.range[0], item.range[1]] : undefined` -/
def rangeOf (item : JValue) : JValue :=
  let r := objGet item "range"
  if !jStrEq (fnTypeOf item) "implicit" && isArray r && arrLen r == 2 then
    .arr [jidx r 0, jidx r 1]
  else .undefined

/-- Body of the `config.data.map((item, index) => ...)` callback: the object
literal `{ ...item, fnType, graphType, color, label, vector, range }`.
(This is the non-throwing path; `processItem` accounts for the TypeError the
first field read raises when the entry is `null`/`undefined`.) -/
def processItemCore (item : JValue) (index : Nat) : JValue :=
  .obj (setField (setField (setField (setField (setField (setField
    (spreadFields item)
    "fnType" (fnTypeOf item))
    "graphType" (graphTypeOf item))
    "color" (colorOf item index))
    "label" (labelOf item index))
    "vector" (vectorOf item))
    "range" (rangeOf item))

/-- One step of the series processor as the host executes it: reading
`item.fnType` on a `null`/`undefined` entry throws. -/
def processItem (item : JValue) (index : Nat) : Except String JValue :=
  match item with
  | .null => .error (tyErrMsg "null" "fnType")
  | .undefined => .error (tyErrMsg "undefined" "fnType")
  | _ => .ok (processItemCore item index)

/-- `config.data.map((item, index) => ...)`: the first throwing entry aborts
the whole pass. -/
def processData (items : List JValue) : Except String (List JValue) :=
  items.enum.mapM (fun p => processItem p.2 p.1)

/-- The single synthesized series of the legacy branch (source lines 96-102):
`{ fn: parsed.fn || "x", color: LEGEND_COLORS[0], graphType: "polyline",
label: parsed.fn, range: parsed.range }`. -/
def legacyItem (parsed : JValue) : JValue :=
  .obj [
    ("fn", jor (objGet parsed "fn") (.str "x")),
    ("color", .str (LEGEND_COLORS.getD 0 "")),
    ("graphType", .str "polyline"),
    ("label", objGet parsed "fn"),
    ("range", objGet parsed "range")]

/-- The whole legacy-branch config literal (source lines 94-107). -/
def legacyConfigOf (parsed : JValue) : JValue :=
  .obj [
    ("data", .arr [legacyItem parsed]),
    ("xAxis", .obj [("domain",
        jor (objGet parsed "domain") (.arr [.num (-10), .num 10]))]),
    ("yAxis", .obj [("domain", .arr [.num (-10), .num 10])]),
    ("grid", .bool true)]

/-- Config normalization (source lines 87-108): reading `parsed.data` may
throw; an array-valued `data` field selects the advanced shape (the parsed
value is passed through verbatim), anything else selects the legacy
shorthand. -/
def normalizeConfig (parsed : JValue) : Except String JValue :=
  match readField parsed "data" with
  | .error m => .error m
  | .ok d => if isArray d then .ok parsed else .ok (legacyConfigOf parsed)

/-- `config.data` viewed as a list; in `drawGraph` the field is always an
array by construction of the two `normalize` branches. -/
def configData (config : JValue) : List JValue :=
  match objGet config "data" with
  | .arr xs => xs
  | _ => []

/-- `v?.k` — optional chaining: `undefined` when the receiver is
`null`/`undefined`, an ordinary property read otherwise. -/
def optChainGet (v : JValue) (k : String) : JValue :=
  match v with
  | .null => .undefined
  | .undefined => .undefined
  | _ => objGet v k

/-- The message thrown when `JSON.parse` fails (source line 84). -/
def parseErrMsg : String := "Failed to parse diagram"

/-- The JS strict comparison `v === false`. -/
def jStrictFalse : JValue → Bool
  | .bool b => b == false
  | _ => false

/-- The fully-resolved call handed to the `functionPlot` engine (source
lines 154-178); `grid` is the boolean `config.grid !== false`, the axis
fields carry the `|| default` fallbacks computed at the call site. -/
structure DrawCall where
  width : Rat
  height : Rat
  title : JValue
  grid : Bool
  disableZoom : JValue
  xDomain : JValue
  xLabel : JValue
  yDomain : JValue
  yLabel : JValue
  data : List JValue

/-- Assembles the engine call from the normalized config, the processed
series and the measured dimensions. -/
def mkDrawCall (w h : Rat) (config : JValue) (processed : List JValue) : DrawCall :=
  { width := w
    height := h
    title := objGet config "title"
    grid := !jStrictFalse (objGet config "grid")
    disableZoom := objGet config "disableZoom"
    xDomain := jor (optChainGet (objGet config "xAxis") "domain") (.arr [.num (-10), .num 10])
    xLabel := jor (optChainGet (objGet config "xAxis") "label") (.str "x")
    yDomain := jor (optChainGet (objGet config "yAxis") "domain") (.arr [.num (-10), .num 10])
    yLabel := jor (optChainGet (objGet config "yAxis") "label") (.str "y")
    data := processed }

/-- Component state: measured dimensions, current (parsed) input, the error
banner, the legend items, and the log of engine invocations made so far. -/
structure MGState where
  width : Rat
  height : Rat
  code : Except Unit JValue
  error : Option String
  legendItems : List JValue
  drawCalls : List DrawCall

/-- One execution of the `drawGraph` callback (source lines 73-186): parse
failure, the `parsed.data` TypeError and a throwing series entry each land in
the `catch` and set the error; on success the legend is set to the processed
series and one engine call is recorded. `setError(null)` at entry plus the
`catch` make the net error the failure message, or `none` on success. -/
def drawGraphRun (s : MGState) (c : Except Unit JValue) : MGState :=
  match c with
  | .error _ => { s with error := some parseErrMsg }
  | .ok parsed =>
    match normalizeConfig parsed with
    | .error m => { s with error := some m }
    | .ok config =>
      match processData (configData config) with
      | .error m => { s with error := some m }
      | .ok processed =>
        { s with
            error := none
            legendItems := processed
            drawCalls := s.drawCalls ++ [mkDrawCall s.width s.height config processed] }

/-- The draw effect (source lines 69-71): bail out while either measured
dimension is still `0`; otherwise run `drawGraph` (the host element is
assumed mounted). -/
def drawEffect (s : MGState) (c : Except Unit JValue) : MGState :=
  if s.width = 0 ∨ s.height = 0 then s else drawGraphRun s c

/-- External triggers: a ResizeObserver report, or a change of the `code`
prop (already carried through the modelled `JSON.parse`). -/
inductive MGEvent where
  | resize (w h : Rat) : MGEvent
  | setCode (c : Except Unit JValue) : MGEvent

/-- One reaction of the component. A resize report updates the dimensions
only when both are positive (source lines 56-63) — and only then does the
draw effect re-fire; a code change always re-fires the draw effect. -/
def step (s : MGState) : MGEvent → MGState
  | .resize w h =>
    if 0 < w ∧ 0 < h then
      drawEffect { s with width := w, height := h } s.code
    else s
  | .setCode c =>
    drawEffect { s with code := c } c

/-- Freshly mounted component: dimensions `(0, 0)`, no error, empty legend,
no engine call yet (source lines 49-51). -/
def initState (c : Except Unit JValue) : MGState :=
  { width := 0, height := 0, code := c, error := none, legendItems := [], drawCalls := [] }

/-- Mounting runs the draw effect once with the initial `(0, 0)` dimensions. -/
def mount (c : Except Unit JValue) : MGState :=
  drawEffect (initState c) c

/-- The component after mounting with input `c` and reacting to `evs`. -/
def runMG (c : Except Unit JValue) (evs : List MGEvent) : MGState :=
  evs.foldl step (mount c)

/-- The legend actually rendered (source line 220): shown only while it is
non-empty and no error is active. -/
def displayedLegend (s : MGState) : List JValue :=
  if 0 < s.legendItems.length ∧ s.error = none then s.legendItems else []

/-- Is this value a non-empty JS string? -/
def isNonEmptyString : JValue → Bool
  | .str s => s != ""
  | _ => false

/-- Is this value a string or absent (`undefined`)? -/
def isStrOrAbsent : JValue → Bool
  | .str _ => true
  | .undefined => true
  | _ => false

/-- Reachability invariant of the component: the stored dimensions are the
initial `(0, 0)` or both positive (the observer only ever stores positive
reports), and every engine call recorded so far was made with positive
dimensions. -/
def MGInv (s : MGState) : Prop :=
  ((s.width = 0 ∧ s.height = 0) ∨ (0 < s.width ∧ 0 < s.height)) ∧
  ∀ call ∈ s.drawCalls, 0 < call.width ∧ 0 < call.height

theorem find?_setField_self (fs : List (String × JValue)) (k : String) (v : JValue) :
    (setField fs k v).find? (fun p => p.1 == k) = some (k, v) := by
  induction fs with
  | nil => simp [setField, List.find?]
  | cons p fs ih =>
    obtain ⟨k', v'⟩ := p
    by_cases h : (k' == k) = true
    · simp [setField, h, List.find?]
    · simp only [setField, Bool.not_eq_true] at h ⊢
      rw [h]
      simpa [List.find?, h] using ih

theorem find?_setField_ne (fs : List (String × JValue)) (k : String) (v : JValue)
    (k' : String) (h : k' ≠ k) :
    (setField fs k v).find? (fun p => p.1 == k') = fs.find? (fun p => p.1 == k') := by
  have hk : (k == k') = false := beq_eq_false_iff_ne.mpr (Ne.symm h)
  induction fs with
  | nil => simp [setField, List.find?, hk]
  | cons p fs ih =>
    obtain ⟨k'', v''⟩ := p
    by_cases h2 : (k'' == k) = true
    · have : k'' = k := eq_of_beq h2
      subst this
      simp [setField, List.find?, hk, ih]
    · simp only [Bool.not_eq_true] at h2
      by_cases h3 : (k'' == k') = true
      · simp [setField, h2, List.find?, h3]
      · simp only [Bool.not_eq_true] at h3
        simp [setField, h2, List.find?, h3, ih]

theorem objGet_setField_self (fs : List (String × JValue)) (k : String) (v : JValue) :
    objGet (.obj (setField fs k v)) k = v := by
  simp [objGet, find?_setField_self]

theorem objGet_setField_ne (fs : List (String × JValue)) (k : String) (v : JValue)
    (k' : String) (h : k' ≠ k) :
    objGet (.obj (setField fs k v)) k' = objGet (.obj fs) k' := by
  simp only [objGet, find?_setField_ne fs k v k' h]

theorem processed_fnType (item : JValue) (i : Nat) :
    objGet (processItemCore item i) "fnType" = fnTypeOf item := by
  unfold processItemCore
  rw [objGet_setField_ne _ _ _ _ (by decide), objGet_setField_ne _ _ _ _ (by decide),
    objGet_setField_ne _ _ _ _ (by decide), objGet_setField_ne _ _ _ _ (by decide),
    objGet_setField_ne _ _ _ _ (by decide), objGet_setField_self]

theorem processed_graphType (item : JValue) (i : Nat) :
    objGet (processItemCore item i) "graphType" = graphTypeOf item := by
  unfold processItemCore
  rw [objGet_setField_ne _ _ _ _ (by decide), objGet_setField_ne _ _ _ _ (by decide),
    objGet_setField_ne _ _ _ _ (by decide), objGet_setField_ne _ _ _ _ (by decide),
    objGet_setField_self]

theorem processed_color (item : JValue) (i : Nat) :
    objGet (processItemCore item i) "color" = colorOf item i := by
  unfold processItemCore
  rw [objGet_setField_ne _ _ _ _ (by decide), objGet_setField_ne _ _ _ _ (by decide),
    objGet_setField_ne _ _ _ _ (by decide), objGet_setField_self]

theorem processed_label (item : JValue) (i : Nat) :
    objGet (processItemCore item i) "label" = labelOf item i := by
  unfold processItemCore
  rw [objGet_setField_ne _ _ _ _ (by decide), objGet_setField_ne _ _ _ _ (by decide),
    objGet_setField_self]

theorem processed_vector (item : JValue) (i : Nat) :
    objGet (processItemCore item i) "vector" = vectorOf item := by
  unfold processItemCore
  rw [objGet_setField_ne _ _ _ _ (by decide), objGet_setField_self]

theorem processed_range (item : JValue) (i : Nat) :
    objGet (processItemCore item i) "range" = rangeOf item := by
  unfold processItemCore
  rw [objGet_setField_self]

theorem drawGraphRun_width (s : MGState) (c : Except Unit JValue) :
    (drawGraphRun s c).width = s.width := by
  unfold drawGraphRun
  split
  · rfl
  · split
    · rfl
    · split
      · rfl
      · rfl

theorem drawGraphRun_height (s : MGState) (c : Except Unit JValue) :
    (drawGraphRun s c).height = s.height := by
  unfold drawGraphRun
  split
  · rfl
  · split
    · rfl
    · split
      · rfl
      · rfl

theorem drawGraphRun_drawCalls (s : MGState) (c : Except Unit JValue) :
    ∃ tail, (drawGraphRun s c).drawCalls = s.drawCalls ++ tail ∧
      ∀ call ∈ tail, call.width = s.width ∧ call.height = s.height := by
  unfold drawGraphRun
  split
  · exact ⟨[], by simp⟩
  · split
    · exact ⟨[], by simp⟩
    · split
      · exact ⟨[], by simp⟩
      · refine ⟨_, rfl, ?_⟩
        intro call hc
        rw [List.mem_singleton] at hc
        subst hc
        exact ⟨rfl, rfl⟩

theorem mgInv_drawGraphRun (s : MGState) (c : Except Unit JValue)
    (hw : 0 < s.width) (hh : 0 < s.height)
    (hcalls : ∀ call ∈ s.drawCalls, 0 < call.width ∧ 0 < call.height) :
    MGInv (drawGraphRun s c) := by
  constructor
  · rw [drawGraphRun_width, drawGraphRun_height]
    exact Or.inr ⟨hw, hh⟩
  · obtain ⟨tail, heq, htail⟩ := drawGraphRun_drawCalls s c
    rw [heq]
    intro call hc
    rcases List.mem_append.mp hc with h | h
    · exact hcalls call h
    · obtain ⟨h1, h2⟩ := htail call h
      rw [h1, h2]
      exact ⟨hw, hh⟩

theorem mgInv_drawEffect (s : MGState) (c : Except Unit JValue) (h : MGInv s) :
    MGInv (drawEffect s c) := by
  unfold drawEffect
  split
  · exact h
  · next hz =>
    push_neg at hz
    rcases h.1 with hd | hd
    · exact absurd hd.1 hz.1
    · exact mgInv_drawGraphRun s c hd.1 hd.2 h.2

theorem mgInv_step (s : MGState) (e : MGEvent) (h : MGInv s) : MGInv (step s e) := by
  cases e with
  | resize w hgt =>
    simp only [step]
    split
    · next hpos =>
      apply mgInv_drawEffect
      exact ⟨Or.inr hpos, h.2⟩
    · exact h
  | setCode c =>
    simp only [step]
    apply mgInv_drawEffect
    exact ⟨h.1, h.2⟩

theorem mgInv_foldl (evs : List MGEvent) (s : MGState) (h : MGInv s) :
    MGInv (evs.foldl step s) := by
  induction evs generalizing s with
  | nil => exact h
  | cons e evs ih =>
    rw [List.foldl_cons]
    exact ih _ (mgInv_step s e h)

theorem mgInv_runMG (c : Except Unit JValue) (evs : List MGEvent) :
    MGInv (runMG c evs) := by
  have hinit : MGInv (mount c) :=
    mgInv_drawEffect (initState c) c ⟨Or.inl ⟨rfl, rfl⟩, by intro call hc; cases hc⟩
  exact mgInv_foldl evs (mount c) hinit

/-- C5: every input series entry whose `fnType` (kind) is `"implicit"` is
processed with `range` absent regardless of what the input supplied, and its
`graphType` (render mode) is `"interval"` when the entry does not set one. -/
theorem c5_implicit_strips_range (item : JValue) (i : Nat)
    (h : objGet item "fnType" = JValue.str "implicit") :
    objGet (processItemCore item i) "range" = JValue.undefined ∧
    (objGet item "graphType" = JValue.undefined →
      objGet (processItemCore item i) "graphType" = JValue.str "interval") := by
  have hf : fnTypeOf item = JValue.str "implicit" := by
    rw [fnTypeOf, h]; rfl
  constructor
  · rw [processed_range, rangeOf, hf]
    rfl
  · intro hg
    rw [processed_graphType, graphTypeOf, hg, hf]
    rfl

/-- C5 witness: the spec scenario
`{"fnType":"implicit","fn":"x^2+y^2-4","range":[0,5]}` is processed with its
range stripped and render mode `interval`. -/
theorem c5_implicit_strips_range_witness :
    objGet (processItemCore (JValue.obj [("fnType", JValue.str "implicit"),
      ("fn", JValue.str "x^2+y^2-4"),
      ("range", JValue.arr [JValue.num 0, JValue.num 5])]) 0) "range" = JValue.undefined ∧
    objGet (processItemCore (JValue.obj [("fnType", JValue.str "implicit"),
      ("fn", JValue.str "x^2+y^2-4"),
      ("range", JValue.arr [JValue.num 0, JValue.num 5])]) 0) "graphType"
      = JValue.str "interval" :=
  ⟨(c5_implicit_strips_range (JValue.obj [("fnType", JValue.str "implicit"),
      ("fn", JValue.str "x^2+y^2-4"),
      ("range", JValue.arr [JValue.num 0, JValue.num 5])]) 0 rfl).1,
   (c5_implicit_strips_range (JValue.obj [("fnType", JValue.str "implicit"),
      ("fn", JValue.str "x^2+y^2-4"),
      ("range", JValue.arr [JValue.num 0, JValue.num 5])]) 0 rfl).2 rfl⟩

/-- C6: a series entry that omits `color` is processed with the palette color
at `index % paletteSize`, over the fixed 7-entry palette; being a pure
function of the entry and its position, the assignment is deterministic. -/
theorem c6_default_color_palette (item : JValue) (i : Nat)
    (h : objGet item "color" = JValue.undefined) :
    objGet (processItemCore item i) "color"
      = JValue.str (LEGEND_COLORS.getD (i % LEGEND_COLORS.length) "") ∧
    LEGEND_COLORS.length = 7 := by
  constructor
  · rw [processed_color, colorOf, h]
    rfl
  · rfl

/-- C6 witness: a color-less entry at index 9 receives palette entry
`9 % 7 = 2`. -/
theorem c6_default_color_palette_witness :
    objGet (processItemCore (JValue.obj [("fn", JValue.str "sin(x)")]) 9) "color"
      = JValue.str (LEGEND_COLORS.getD (9 % LEGEND_COLORS.length) "") ∧
    LEGEND_COLORS.length = 7 :=
  c6_default_color_palette _ 9 rfl

/-- C10: with the parsed value `null` (input text `"null"`), the render pass
synthesizes no legacy series: reading `parsed.data` during shape detection
throws, the exception is caught at the coordinator boundary, and the
component ends Failed (error set, no legend update, no engine call). -/
theorem c10_null_input_fails (s : MGState) :
    drawGraphRun s (Except.ok JValue.null)
      = { s with error := some (tyErrMsg "null" "data") } ∧
    (drawGraphRun s (Except.ok JValue.null)).drawCalls = s.drawCalls ∧
    (drawGraphRun s (Except.ok JValue.null)).legendItems = s.legendItems ∧
    (drawGraphRun s (Except.ok JValue.null)).error ≠ none := by
  refine ⟨rfl, rfl, rfl, ?_⟩
  rw [show (drawGraphRun s (Except.ok JValue.null)).error
      = some (tyErrMsg "null" "data") from rfl]
  simp

/-- C1 counterexample: the 2-element numeric range `[5, 0]` with `5 > 0` is
passed through verbatim, so a present output range need not satisfy
`min ≤ max`. -/
theorem c1_range_counterexample :
    objGet (processItemCore (JValue.obj [("range",
        JValue.arr [JValue.num 5, JValue.num 0])]) 0) "range"
      = JValue.arr [JValue.num 5, JValue.num 0] ∧
    ¬ ((5 : Rat) ≤ 0) :=
  ⟨rfl, by norm_num⟩

/-- C1 amended: if `range` is present on the processed series it has exactly
two elements, copied from a 2-element array input; non-array or wrong-length
input is dropped entirely (treated as absent), never partially applied — but
no numeric or `min ≤ max` check is performed on the elements. -/
theorem c1_range_two_elems_amended (item : JValue) (i : Nat) :
    (objGet (processItemCore item i) "range" = JValue.undefined ∨
      ∃ a b, objGet (processItemCore item i) "range" = JValue.arr [a, b]) ∧
    (isArray (objGet item "range") = false →
      objGet (processItemCore item i) "range" = JValue.undefined) ∧
    (∀ xs, objGet item "range" = JValue.arr xs → xs.length ≠ 2 →
      objGet (processItemCore item i) "range" = JValue.undefined) := by
  rw [processed_range]
  refine ⟨?_, ?_, ?_⟩
  · rw [rangeOf]
    split
    · exact Or.inr ⟨_, _, rfl⟩
    · exact Or.inl rfl
  · intro h
    rw [rangeOf]
    rw [if_neg]
    simp [h]
  · intro xs hx hlen
    rw [rangeOf]
    rw [if_neg]
    simp [hx, arrLen, hlen]

/-- C1 witness for the amended statement: a non-array range and a 1-element
range are both dropped. -/
theorem c1_range_witness :
    objGet (processItemCore (JValue.obj [("range", JValue.str "bad")]) 0) "range"
      = JValue.undefined ∧
    objGet (processItemCore (JValue.obj [("range", JValue.arr [JValue.num 1])]) 0) "range"
      = JValue.undefined :=
  ⟨(c1_range_two_elems_amended _ 0).2.1 rfl,
   (c1_range_two_elems_amended _ 0).2.2 [JValue.num 1] rfl (by norm_num)⟩

/-- C2 counterexample: the unrecognized (truthy) value `"foo"` is NOT
defaulted to `"linear"`; it passes through, so the processed kind is not
confined to the enum. -/
theorem c2_fnType_counterexample :
    objGet (processItemCore (JValue.obj [("fnType", JValue.str "foo")]) 0) "fnType"
      = JValue.str "foo" ∧
    ("foo" : String) ∉ ["linear", "implicit", "parametric", "points", "vector"] :=
  ⟨rfl, by decide⟩

/-- C2 amended: `fnType` defaults to `"linear"` exactly when the supplied
value is missing or otherwise falsy (e.g. the empty string); any truthy
value — recognized or not — passes through unchanged. -/
theorem c2_fnType_default_amended (item : JValue) (i : Nat) :
    (objGet item "fnType" = JValue.undefined →
      objGet (processItemCore item i) "fnType" = JValue.str "linear") ∧
    (truthy (objGet item "fnType") = false →
      objGet (processItemCore item i) "fnType" = JValue.str "linear") ∧
    (truthy (objGet item "fnType") = true →
      objGet (processItemCore item i) "fnType" = objGet item "fnType") := by
  have key : truthy (objGet item "fnType") = false →
      objGet (processItemCore item i) "fnType" = JValue.str "linear" := by
    intro hb
    rw [processed_fnType, fnTypeOf, jor, hb]
    rfl
  refine ⟨fun h => key (by rw [h]; rfl), key, fun h => ?_⟩
  rw [processed_fnType, fnTypeOf, jor, h]
  rfl

/-- C2 witness: missing and empty-string kinds default to `"linear"`; the
truthy `"parametric"` passes through. -/
theorem c2_fnType_default_witness :
    objGet (processItemCore (JValue.obj []) 0) "fnType" = JValue.str "linear" ∧
    objGet (processItemCore (JValue.obj [("fnType", JValue.str "")]) 1) "fnType"
      = JValue.str "linear" ∧
    objGet (processItemCore (JValue.obj [("fnType", JValue.str "parametric")]) 2) "fnType"
      = objGet (JValue.obj [("fnType", JValue.str "parametric")]) "fnType" :=
  ⟨(c2_fnType_default_amended _ 0).1 rfl,
   (c2_fnType_default_amended _ 1).2.1 rfl,
   (c2_fnType_default_amended _ 2).2.2 rfl⟩

/-- C3 counterexample: the 1-element vector `[3]` is not treated as absent;
it is copied into `[3, undefined]`. -/
theorem c3_vector_counterexample :
    objGet (processItemCore (JValue.obj [("vector", JValue.arr [JValue.num 3])]) 0) "vector"
      = JValue.arr [JValue.num 3, JValue.undefined] ∧
    JValue.arr [JValue.num 3, JValue.undefined] ≠ JValue.undefined :=
  ⟨rfl, by simp⟩

/-- C3 amended: a falsy `vector` is absent on the output; an array-valued
`vector` is copied by value into a fresh 2-tuple of its first two positions,
discarding extra elements — but an array with fewer than 2 elements is NOT
treated as absent: the missing positions are filled with `undefined`. -/
theorem c3_vector_copy_amended (item : JValue) (i : Nat) :
    (truthy (objGet item "vector") = false →
      objGet (processItemCore item i) "vector" = JValue.undefined) ∧
    (∀ xs, objGet item "vector" = JValue.arr xs →
      objGet (processItemCore item i) "vector"
        = JValue.arr [(xs.get? 0).getD JValue.undefined, (xs.get? 1).getD JValue.undefined]) := by
  constructor
  · intro h
    rw [processed_vector, vectorOf]
    simp [h]
  · intro xs h
    rw [processed_vector, vectorOf, h]
    rfl

/-- C3 witness: an absent vector stays absent; `[1,2,3]` is copied to the
fresh pair `[1,2]` with the extra element discarded. -/
theorem c3_vector_copy_witness :
    objGet (processItemCore (JValue.obj []) 0) "vector" = JValue.undefined ∧
    objGet (processItemCore (JValue.obj [("vector",
        JValue.arr [JValue.num 1, JValue.num 2, JValue.num 3])]) 0) "vector"
      = JValue.arr [(([JValue.num 1, JValue.num 2, JValue.num 3].get? 0)).getD JValue.undefined,
          (([JValue.num 1, JValue.num 2, JValue.num 3].get? 1)).getD JValue.undefined] :=
  ⟨(c3_vector_copy_amended _ 0).1 rfl,
   (c3_vector_copy_amended _ 0).2 [JValue.num 1, JValue.num 2, JValue.num 3] rfl⟩

/-- C4 counterexample: after a successful render (mount `{}` then a positive
resize) a parse failure sets the error but does NOT clear the legend state:
it stays non-empty. -/
theorem c4_legend_counterexample :
    (runMG (Except.ok (JValue.obj [])) [MGEvent.resize 100 50,
        MGEvent.setCode (Except.error ())]).error = some parseErrMsg ∧
    (runMG (Except.ok (JValue.obj [])) [MGEvent.resize 100 50,
        MGEvent.setCode (Except.error ())]).legendItems ≠ [] := by
  refine ⟨rfl, ?_⟩
  rw [show (runMG (Except.ok (JValue.obj [])) [MGEvent.resize 100 50,
      MGEvent.setCode (Except.error ())]).legendItems
      = [processItemCore (legacyItem (JValue.obj [])) 0] from rfl]
  simp

/-- C4 amended: on a parse failure the pass transitions to Failed with the
parse-error message, records no engine call and performs no partial legend
update — the stored legend is left unchanged rather than cleared, but the
DISPLAYED legend is empty because an active error suppresses it (on a fresh
mount the stored legend is empty as well). -/
theorem c4_parse_failure_amended (s : MGState) (u : Unit) :
    drawGraphRun s (Except.error u) = { s with error := some parseErrMsg } ∧
    (drawGraphRun s (Except.error u)).drawCalls = s.drawCalls ∧
    (drawGraphRun s (Except.error u)).legendItems = s.legendItems ∧
    displayedLegend (drawGraphRun s (Except.error u)) = [] := by
  refine ⟨rfl, rfl, rfl, ?_⟩
  rw [show drawGraphRun s (Except.error u) = { s with error := some parseErrMsg } from rfl]
  simp [displayedLegend]

/-- C7 counterexample: the legacy input `{"domain": null}` declares a
`domain`, yet the normalized x-domain is the default `[-10, 10]`, not the
declared value (the `||` fallback also fires on declared falsy domains). -/
theorem c7_domain_counterexample :
    (normalizeConfig (JValue.obj [("domain", JValue.null)])).map
        (fun cfg => optChainGet (objGet cfg "xAxis") "domain")
      = Except.ok (JValue.arr [JValue.num (-10), JValue.num 10]) ∧
    objGet (JValue.obj [("domain", JValue.null)]) "domain" = JValue.null ∧
    JValue.null ≠ JValue.undefined ∧
    JValue.null ≠ JValue.arr [JValue.num (-10), JValue.num 10] :=
  ⟨rfl, rfl, by simp, by simp⟩

/-- C7 amended: every legacy-shape input (decoded, non-null, lacking an
array `data` field) normalizes to exactly one series with `graphType`
`"polyline"`, the first palette color, label equal to the raw `fn` value as
typed, x-domain equal to the declared `domain` when that value is truthy and
`[-10,10]` when it is absent or falsy, y-domain `[-10,10]`, and `grid`
forced `true`. -/
theorem c7_legacy_shape_amended (parsed : JValue) (h1 : parsed ≠ JValue.null)
    (h2 : parsed ≠ JValue.undefined) (h3 : isArray (objGet parsed "data") = false) :
    normalizeConfig parsed = Except.ok (legacyConfigOf parsed) ∧
    configData (legacyConfigOf parsed) = [legacyItem parsed] ∧
    objGet (legacyItem parsed) "graphType" = JValue.str "polyline" ∧
    objGet (legacyItem parsed) "color" = JValue.str (LEGEND_COLORS.getD 0 "") ∧
    objGet (legacyItem parsed) "label" = objGet parsed "fn" ∧
    objGet (legacyItem parsed) "fn" = jor (objGet parsed "fn") (JValue.str "x") ∧
    (truthy (objGet parsed "domain") = true →
      optChainGet (objGet (legacyConfigOf parsed) "xAxis") "domain"
        = objGet parsed "domain") ∧
    (truthy (objGet parsed "domain") = false →
      optChainGet (objGet (legacyConfigOf parsed) "xAxis") "domain"
        = JValue.arr [JValue.num (-10), JValue.num 10]) ∧
    optChainGet (objGet (legacyConfigOf parsed) "yAxis") "domain"
      = JValue.arr [JValue.num (-10), JValue.num 10] ∧
    objGet (legacyConfigOf parsed) "grid" = JValue.bool true := by
  have hnorm : normalizeConfig parsed = Except.ok (legacyConfigOf parsed) := by
    cases parsed with
    | null => exact absurd rfl h1
    | undefined => exact absurd rfl h2
    | bool b => simp [normalizeConfig, readField, h3]
    | num q => simp [normalizeConfig, readField, h3]
    | str t => simp [normalizeConfig, readField, h3]
    | arr xs => simp [normalizeConfig, readField, h3]
    | obj fs => simp [normalizeConfig, readField, h3]
  have hx : optChainGet (objGet (legacyConfigOf parsed) "xAxis") "domain"
      = jor (objGet parsed "domain") (JValue.arr [JValue.num (-10), JValue.num 10]) := rfl
  refine ⟨hnorm, rfl, rfl, rfl, rfl, rfl, ?_, ?_, rfl, rfl⟩
  · intro ht
    rw [hx]
    simp [jor, ht]
  · intro hf
    rw [hx]
    simp [jor, hf]

/-- C7 witness: the spec scenario `{"fn":"x^2"}` takes the legacy branch and
gets the default x-domain. -/
theorem c7_legacy_shape_witness :
    normalizeConfig (JValue.obj [("fn", JValue.str "x^2")])
      = Except.ok (legacyConfigOf (JValue.obj [("fn", JValue.str "x^2")])) ∧
    objGet (legacyItem (JValue.obj [("fn", JValue.str "x^2")])) "label"
      = objGet (JValue.obj [("fn", JValue.str "x^2")]) "fn" ∧
    optChainGet (objGet (legacyConfigOf (JValue.obj [("fn", JValue.str "x^2")])) "xAxis")
        "domain" = JValue.arr [JValue.num (-10), JValue.num 10] :=
  ⟨(c7_legacy_shape_amended (JValue.obj [("fn", JValue.str "x^2")])
      (by simp) (by simp) rfl).1,
   (c7_legacy_shape_amended (JValue.obj [("fn", JValue.str "x^2")])
      (by simp) (by simp) rfl).2.2.2.2.1,
   (c7_legacy_shape_amended (JValue.obj [("fn", JValue.str "x^2")])
      (by simp) (by simp) rfl).2.2.2.2.2.2.2.1 rfl⟩

/-- C8: a resize report without both dimensions positive changes nothing (no
render attempt), and every engine invocation ever recorded by a reachable
component state was made with positive width and height. -/
theorem c8_zero_size_never_draws :
    (∀ (s : MGState) (w h : Rat), ¬ (0 < w ∧ 0 < h) →
      step s (MGEvent.resize w h) = s) ∧
    (∀ (c : Except Unit JValue) (evs : List MGEvent),
      ∀ call ∈ (runMG c evs).drawCalls, 0 < call.width ∧ 0 < call.height) := by
  constructor
  · intro s w h hn
    simp only [step]
    rw [if_neg hn]
  · intro c evs call hc
    exact (mgInv_runMG c evs).2 call hc

/-- C8 witness: a zero-width report leaves the freshly mounted component
unchanged, and the single call recorded after a `100×50` resize has positive
dimensions. -/
theorem c8_zero_size_witness :
    step (mount (Except.error ())) (MGEvent.resize 0 5) = mount (Except.error ()) ∧
    (0 < (mkDrawCall 100 50 (legacyConfigOf (JValue.obj []))
        [processItemCore (legacyItem (JValue.obj [])) 0]).width ∧
      0 < (mkDrawCall 100 50 (legacyConfigOf (JValue.obj []))
        [processItemCore (legacyItem (JValue.obj [])) 0]).height) := by
  constructor
  · exact c8_zero_size_never_draws.1 _ 0 5 (by norm_num)
  · refine c8_zero_size_never_draws.2 (Except.ok (JValue.obj []))
      [MGEvent.resize 100 50] _ ?_
    rw [show (runMG (Except.ok (JValue.obj [])) [MGEvent.resize 100 50]).drawCalls
        = [mkDrawCall 100 50 (legacyConfigOf (JValue.obj []))
            [processItemCore (legacyItem (JValue.obj [])) 0]] from rfl]
    exact List.mem_singleton_self _

theorem isStrOrAbsent_jor (a b : JValue) (ha : isStrOrAbsent a = true)
    (hb : isStrOrAbsent b = true) : isStrOrAbsent (jor a b) = true := by
  rw [jor]
  split
  · exact ha
  · exact hb

theorem ordinal_name_nonempty (i : Nat) :
    isNonEmptyString (JValue.str ("Function " ++ toString (i + 1))) = true := by
  simp only [isNonEmptyString]
  refine bne_iff_ne.mpr ?_
  intro heq
  have h2 := congrArg String.length heq
  rw [String.length_append] at h2
  rw [show ("Function ").length = 9 from rfl, show ("").length = 0 from rfl] at h2
  omega

theorem nonempty_of_jor_str (v pal : JValue) (hv : isStrOrAbsent v = true)
    (hpal : isNonEmptyString pal = true) : isNonEmptyString (jor v pal) = true := by
  cases v with
  | str s =>
    by_cases hs : s = ""
    · subst hs
      simpa [jor, truthy] using hpal
    · simp [jor, truthy, hs, isNonEmptyString]
  | undefined => simpa [jor, truthy] using hpal
  | null => simp [isStrOrAbsent] at hv
  | bool b => simp [isStrOrAbsent] at hv
  | num q => simp [isStrOrAbsent] at hv
  | arr xs => simp [isStrOrAbsent] at hv
  | obj fs => simp [isStrOrAbsent] at hv

theorem palette_entry_nonempty (i : Nat) :
    isNonEmptyString (JValue.str (LEGEND_COLORS.getD (i % LEGEND_COLORS.length) "")) = true := by
  have hlt : i % LEGEND_COLORS.length < 7 := by
    rw [show LEGEND_COLORS.length = 7 from rfl]
    exact Nat.mod_lt _ (by norm_num)
  have hall : ∀ j, j < 7 →
      isNonEmptyString (JValue.str (LEGEND_COLORS.getD j "")) = true := by decide
  exact hall _ hlt

/-- C9 counterexample: a series entry supplying the (truthy) number `5` as
`color` is processed with that number as its color, which is not a non-empty
string. -/
theorem c9_color_counterexample :
    objGet (processItemCore (JValue.obj [("color", JValue.num 5)]) 0) "color"
      = JValue.num 5 ∧
    isNonEmptyString (JValue.num 5) = false :=
  ⟨rfl, rfl⟩

/-- C9 amended: whenever the supplied `color` is a string or absent, the
processed color is a non-empty string (empty strings fall back to the
palette); whenever the supplied `label` and `fn` are each a string or
absent, the processed label is a non-empty string (label falls back to a
non-empty `fn`, else to the generated ordinal `Function {index+1}`). Truthy
non-string inputs, however, pass through unchanged. -/
theorem c9_nonempty_amended (item : JValue) (i : Nat) :
    (isStrOrAbsent (objGet item "color") = true →
      isNonEmptyString (objGet (processItemCore item i) "color") = true) ∧
    (isStrOrAbsent (objGet item "label") = true →
      isStrOrAbsent (objGet item "fn") = true →
      isNonEmptyString (objGet (processItemCore item i) "label") = true) := by
  constructor
  · intro h
    rw [processed_color, colorOf]
    exact nonempty_of_jor_str _ _ h (palette_entry_nonempty i)
  · intro hl hf
    rw [processed_label, labelOf]
    exact nonempty_of_jor_str _ _ (isStrOrAbsent_jor _ _ hl hf) (ordinal_name_nonempty i)

/-- C9 witness: an entry supplying empty strings for `color`, `label` and
`fn` still gets a non-empty color and label. -/
theorem c9_nonempty_witness :
    isNonEmptyString (objGet (processItemCore (JValue.obj [("color", JValue.str ""),
      ("label", JValue.str ""), ("fn", JValue.str "")]) 0) "color") = true ∧
    isNonEmptyString (objGet (processItemCore (JValue.obj [("color", JValue.str ""),
      ("label", JValue.str ""), ("fn", JValue.str "")]) 0) "label") = true :=
  ⟨(c9_nonempty_amended (JValue.obj [("color", JValue.str ""),
      ("label", JValue.str ""), ("fn", JValue.str "")]) 0).1 rfl,
   (c9_nonempty_amended (JValue.obj [("color", JValue.str ""),
      ("label", JValue.str ""), ("fn", JValue.str "")]) 0).2 rfl rfl⟩

